import Mathlib

/-!
Verification of the plugin workspace controller layer
(`api/controllers/console/workspace/plugin.py`) of the dify repository.

The controller endpoints are shallowly embedded as pure Lean functions.
External collaborators (the `PluginService` / `PluginPermissionService` /
`PluginAutoUpgradeService` service layer and the plugin daemon behind it)
are passed in as function parameters, so every theorem quantifies over
their behaviour.  JSON request/response bodies are modelled by the `JVal`
type; raising an exception is modelled by returning `Except ApiError _`.
Where a claim is about *when* an effect happens (reading the uploaded
file, calling the daemon), the embedded endpoint additionally reports
those effects as observable fields of its outcome structure, mirroring
the sequential order of the Python code.
-/

namespace DifyPlugin

/-- A JSON-like value, the shape of request/response bodies produced by
`jsonable_encoder` and consumed by `reqparse`. -/
inductive JVal where
  | str (s : String)
  | num (n : Int)
  | bool (b : Bool)
  | list (xs : List JVal)
  | obj (fields : List (String × JVal))

/-- Whether a JSON object carries a field with the given key. -/
def JVal.hasField : JVal → String → Bool
  | .obj fields, k => fields.any (fun p => p.1 == k)
  | _, _ => false

/-- Look up a field of a JSON object. -/
def JVal.getField : JVal → String → Option JVal
  | .obj fields, k => (fields.find? (fun p => p.1 == k)).map (fun p => p.2)
  | _, _ => none

/-- Modelled from the spec: `PluginDaemonClientSideError` (the class lives in
`core/plugin/impl/exc.py`, outside the given sources) is the normalized
daemon error `DaemonError` carrying a machine-readable code and a human
message. -/
structure PluginDaemonClientSideError where
  code : Int
  message : String
deriving DecidableEq, Repr

/-- An error raised by a controller endpoint: `ValueError(e)` wrapping the
daemon error object whole, a `ValueError` with a plain message, or
`Forbidden`. -/
inductive ApiError where
  | valueError (e : PluginDaemonClientSideError)
  | valueErrorMsg (msg : String)
  | forbidden
deriving DecidableEq, Repr

/-- Modelled from the spec: `TenantPluginPermission.InstallPermission`
(defined in `models/account.py`, outside the given sources): who may
install plugins, one of everyone / admin-owner-only / noone. -/
inductive InstallPermission where
  | everyone
  | admins
  | noone
deriving DecidableEq, Repr

/-- The wire string of an install permission. -/
def InstallPermission.value : InstallPermission → String
  | .everyone => "everyone"
  | .admins => "admins"
  | .noone => "noone"

/-- Enum coercion `TenantPluginPermission.InstallPermission(raw)`: `none`
models the `ValueError` Python raises on an unknown value. -/
def InstallPermission.ofString (raw : String) : Option InstallPermission :=
  if raw = "everyone" then some .everyone
  else if raw = "admins" then some .admins
  else if raw = "noone" then some .noone
  else none

/-- Modelled from the spec: `TenantPluginPermission.DebugPermission`,
same value set as the install permission. -/
inductive DebugPermission where
  | everyone
  | admins
  | noone
deriving DecidableEq, Repr

/-- The wire string of a debug permission. -/
def DebugPermission.value : DebugPermission → String
  | .everyone => "everyone"
  | .admins => "admins"
  | .noone => "noone"

/-- Enum coercion `TenantPluginPermission.DebugPermission(raw)`. -/
def DebugPermission.ofString (raw : String) : Option DebugPermission :=
  if raw = "everyone" then some .everyone
  else if raw = "admins" then some .admins
  else if raw = "noone" then some .noone
  else none

/-- Modelled from the spec:
`TenantPluginAutoUpgradeStrategy.StrategySetting` ∈ disabled / fix_only /
all. -/
inductive StrategySetting where
  | disabled
  | fix_only
  | all
deriving DecidableEq, Repr

/-- The wire string of a strategy setting. -/
def StrategySetting.value : StrategySetting → String
  | .disabled => "disabled"
  | .fix_only => "fix_only"
  | .all => "all"

/-- Enum coercion `TenantPluginAutoUpgradeStrategy.StrategySetting(raw)`. -/
def StrategySetting.ofString (raw : String) : Option StrategySetting :=
  if raw = "disabled" then some .disabled
  else if raw = "fix_only" then some .fix_only
  else if raw = "all" then some .all
  else none

/-- Modelled from the spec:
`TenantPluginAutoUpgradeStrategy.UpgradeMode` ∈ exclude / include. -/
inductive UpgradeMode where
  | exclude
  | includeMode
deriving DecidableEq, Repr

/-- The wire string of an upgrade mode. -/
def UpgradeMode.value : UpgradeMode → String
  | .exclude => "exclude"
  | .includeMode => "include"

/-- Enum coercion `TenantPluginAutoUpgradeStrategy.UpgradeMode(raw)`. -/
def UpgradeMode.ofString (raw : String) : Option UpgradeMode :=
  if raw = "exclude" then some .exclude
  else if raw = "include" then some .includeMode
  else none

/-- A stored tenant plugin permission record. -/
structure TenantPluginPermission where
  install_permission : InstallPermission
  debug_permission : DebugPermission
deriving DecidableEq, Repr

/-- A stored tenant auto-upgrade strategy record. -/
structure TenantPluginAutoUpgradeStrategy where
  strategy_setting : StrategySetting
  upgrade_time_of_day : Int
  upgrade_mode : UpgradeMode
  exclude_plugins : List String
  include_plugins : List String
deriving DecidableEq, Repr

/-- A value taken from an untyped JSON list, as seen by the
`isinstance(x, str)` check of the install endpoints. -/
inductive PyVal where
  | str (s : String)
  | int (n : Int)
  | boolV (b : Bool)
  | noneV
  | listV (xs : List PyVal)

/-- `isinstance(x, str)`. -/
def PyVal.isStr : PyVal → Bool
  | .str _ => true
  | _ => false

/-- Result of `PluginService.list_with_total`. -/
structure PluginListWithTotal where
  list : List JVal
  total : Int

/-- Outcome of an endpoint that performs at most one daemon-backed service
call: the HTTP-level result plus how many daemon calls were issued. -/
structure DaemonCallOutcome where
  result : Except ApiError JVal
  daemonCalls : Nat

/-- `PluginListApi.get`: list plugins with a total, wrapping a daemon
client-side error into `ValueError(e)`. -/
def PluginListApi.get (page page_size : Int)
    (list_with_total : Int → Int → Except PluginDaemonClientSideError PluginListWithTotal) :
    DaemonCallOutcome :=
  match list_with_total page page_size with
  | .error e => ⟨.error (.valueError e), 1⟩
  | .ok r => ⟨.ok (.obj [("plugins", .list r.list), ("total", .num r.total)]), 1⟩

/-- `PluginFetchInstallTasksApi.get`: list install tasks for a page. -/
def PluginFetchInstallTasksApi.get (page page_size : Int)
    (fetch_install_tasks : Int → Int → Except PluginDaemonClientSideError (List JVal)) :
    DaemonCallOutcome :=
  match fetch_install_tasks page page_size with
  | .error e => ⟨.error (.valueError e), 1⟩
  | .ok tasks => ⟨.ok (.obj [("tasks", .list tasks)]), 1⟩

/-- Outcome of an upload endpoint: the result, whether `file.read()`
happened, and how many daemon calls were issued. -/
structure UploadOutcome where
  result : Except ApiError JVal
  file_read : Bool
  daemonCalls : Nat

/-- `PluginUploadFromPkgApi.post`: reject an over-size package before
reading it, otherwise read it and hand it to the daemon. -/
def PluginUploadFromPkgApi.post (content_length PLUGIN_MAX_PACKAGE_SIZE : Nat)
    (file_content : List Nat)
    (upload_pkg : List Nat → Except PluginDaemonClientSideError JVal) : UploadOutcome :=
  if PLUGIN_MAX_PACKAGE_SIZE < content_length then
    ⟨.error (.valueErrorMsg "File size exceeds the maximum allowed size"), false, 0⟩
  else
    match upload_pkg file_content with
    | .error e => ⟨.error (.valueError e), true, 1⟩
    | .ok r => ⟨.ok r, true, 1⟩

/-- `PluginUploadFromBundleApi.post`: reject an over-size bundle before
reading it, otherwise read it and hand it to the daemon. -/
def PluginUploadFromBundleApi.post (content_length PLUGIN_MAX_BUNDLE_SIZE : Nat)
    (file_content : List Nat)
    (upload_bundle : List Nat → Except PluginDaemonClientSideError JVal) : UploadOutcome :=
  if PLUGIN_MAX_BUNDLE_SIZE < content_length then
    ⟨.error (.valueErrorMsg "File size exceeds the maximum allowed size"), false, 0⟩
  else
    match upload_bundle file_content with
    | .error e => ⟨.error (.valueError e), true, 1⟩
    | .ok r => ⟨.ok r, true, 1⟩

/-- The identifier validation loop shared by the install endpoints: raise
`ValueError` at the first element that is not a string. -/
def checkIdentifiers : List PyVal → Except ApiError Unit
  | [] => .ok ()
  | x :: xs =>
    if x.isStr then checkIdentifiers xs
    else .error (.valueErrorMsg "Invalid plugin unique identifier")

/-- `PluginInstallFromPkgApi.post`: validate every identifier is a string,
then start the batch install through the daemon. -/
def PluginInstallFromPkgApi.post (plugin_unique_identifiers : List PyVal)
    (install_from_local_pkg : List PyVal → Except PluginDaemonClientSideError JVal) :
    DaemonCallOutcome :=
  match checkIdentifiers plugin_unique_identifiers with
  | .error e => ⟨.error e, 0⟩
  | .ok _ =>
    match install_from_local_pkg plugin_unique_identifiers with
    | .error e => ⟨.error (.valueError e), 1⟩
    | .ok r => ⟨.ok r, 1⟩

/-- `PluginInstallFromMarketplaceApi.post`: validate every identifier is a
string, then start the batch install through the daemon. -/
def PluginInstallFromMarketplaceApi.post (plugin_unique_identifiers : List PyVal)
    (install_from_marketplace_pkg : List PyVal → Except PluginDaemonClientSideError JVal) :
    DaemonCallOutcome :=
  match checkIdentifiers plugin_unique_identifiers with
  | .error e => ⟨.error e, 0⟩
  | .ok _ =>
    match install_from_marketplace_pkg plugin_unique_identifiers with
    | .error e => ⟨.error (.valueError e), 1⟩
    | .ok r => ⟨.ok r, 1⟩

/-- The `send_file` response of the icon endpoint: raw bytes, mimetype and
cache max-age. -/
structure SendFileResponse where
  data : List Nat
  mimetype : String
  max_age : Nat
deriving DecidableEq, Repr

/-- `PluginIconApi.get`: fetch an asset and serve it with the configured
icon cache max-age. -/
def PluginIconApi.get (tenant_id filename : String)
    (get_asset : String → String → Except PluginDaemonClientSideError (List Nat × String))
    (TOOL_ICON_CACHE_MAX_AGE : Nat) : Except ApiError SendFileResponse :=
  match get_asset tenant_id filename with
  | .error e => .error (.valueError e)
  | .ok (icon_bytes, mimetype) => .ok ⟨icon_bytes, mimetype, TOOL_ICON_CACHE_MAX_AGE⟩

/-- `PluginFetchPermissionApi.get`: return the stored permission record,
or the everyone/everyone defaults when none is stored. -/
def PluginFetchPermissionApi.get (permission : Option TenantPluginPermission) : JVal :=
  match permission with
  | none =>
    .obj [("install_permission", .str InstallPermission.everyone.value),
          ("debug_permission", .str DebugPermission.everyone.value)]
  | some p =>
    .obj [("install_permission", .str p.install_permission.value),
          ("debug_permission", .str p.debug_permission.value)]

/-- `PluginFetchPreferencesApi.get`: return stored permission and
auto-upgrade strategy, with everyone/everyone and
disabled/exclude/0/empty defaults when absent. -/
def PluginFetchPreferencesApi.get (permission : Option TenantPluginPermission)
    (auto_upgrade : Option TenantPluginAutoUpgradeStrategy) : JVal :=
  let permission_dict : List (String × JVal) :=
    match permission with
    | none =>
      [("install_permission", .str InstallPermission.everyone.value),
       ("debug_permission", .str DebugPermission.everyone.value)]
    | some p =>
      [("install_permission", .str p.install_permission.value),
       ("debug_permission", .str p.debug_permission.value)]
  let auto_upgrade_dict : List (String × JVal) :=
    match auto_upgrade with
    | none =>
      [("strategy_setting", .str StrategySetting.disabled.value),
       ("upgrade_time_of_day", .num 0),
       ("upgrade_mode", .str UpgradeMode.exclude.value),
       ("exclude_plugins", .list []),
       ("include_plugins", .list [])]
    | some s =>
      [("strategy_setting", .str s.strategy_setting.value),
       ("upgrade_time_of_day", .num s.upgrade_time_of_day),
       ("upgrade_mode", .str s.upgrade_mode.value),
       ("exclude_plugins", .list (s.exclude_plugins.map .str)),
       ("include_plugins", .list (s.include_plugins.map .str))]
  .obj [("permission", .obj permission_dict), ("auto_upgrade", .obj auto_upgrade_dict)]

/-- `PluginChangePermissionApi.post`: admins/owners only; coerce the two
permission strings and store them through the permission service. -/
def PluginChangePermissionApi.post (is_admin_or_owner : Bool)
    (install_permission debug_permission : String)
    (change_permission : InstallPermission → DebugPermission → Bool) :
    Except ApiError JVal :=
  if is_admin_or_owner then
    match InstallPermission.ofString install_permission,
          DebugPermission.ofString debug_permission with
    | some ip, some dp => .ok (.obj [("success", .bool (change_permission ip dp))])
    | _, _ => .error (.valueErrorMsg "invalid permission enum value")
  else .error .forbidden

/-- The nested `permission` request dict of the preferences-change
endpoint; `none` models an omitted key, read with `.get(key, default)`. -/
structure PermissionDictArg where
  install_permission : Option String
  debug_permission : Option String

/-- The nested `auto_upgrade` request dict of the preferences-change
endpoint; `none` models an omitted key, read with `.get(key, default)`. -/
structure AutoUpgradeDictArg where
  strategy_setting : Option String
  upgrade_time_of_day : Option Int
  upgrade_mode : Option String
  exclude_plugins : Option (List String)
  include_plugins : Option (List String)

/-- `PluginChangePreferencesApi.post`: admins/owners only; fill omitted
request fields with the endpoint defaults, set the permission first and
stop with success=false if that fails, then set the auto-upgrade
strategy.  The two stores are threaded explicitly so that which store
changed is observable; the service behaviours are parameters. -/
def PluginChangePreferencesApi.post (is_admin_or_owner : Bool)
    (permission : PermissionDictArg) (auto_upgrade : AutoUpgradeDictArg)
    (change_permission : InstallPermission → DebugPermission →
      Option TenantPluginPermission → Bool × Option TenantPluginPermission)
    (change_strategy : StrategySetting → Int → UpgradeMode → List String → List String →
      Option TenantPluginAutoUpgradeStrategy → Bool × Option TenantPluginAutoUpgradeStrategy)
    (ps : Option TenantPluginPermission) (ss : Option TenantPluginAutoUpgradeStrategy) :
    Except ApiError JVal × Option TenantPluginPermission ×
      Option TenantPluginAutoUpgradeStrategy :=
  if is_admin_or_owner then
    match InstallPermission.ofString (permission.install_permission.getD "everyone"),
          DebugPermission.ofString (permission.debug_permission.getD "everyone"),
          StrategySetting.ofString (auto_upgrade.strategy_setting.getD "fix_only"),
          UpgradeMode.ofString (auto_upgrade.upgrade_mode.getD "exclude") with
    | some ip, some dp, some sset, some umode =>
      let upgrade_time_of_day := auto_upgrade.upgrade_time_of_day.getD 0
      let exclude_plugins := auto_upgrade.exclude_plugins.getD []
      let include_plugins := auto_upgrade.include_plugins.getD []
      let r1 := change_permission ip dp ps
      if r1.1 then
        let r2 := change_strategy sset upgrade_time_of_day umode
          exclude_plugins include_plugins ss
        if r2.1 then
          (.ok (.obj [("success", .bool true)]), r1.2, r2.2)
        else
          (.ok (.obj [("success", .bool false),
                      ("message", .str "Failed to set auto upgrade strategy")]),
           r1.2, r2.2)
      else
        (.ok (.obj [("success", .bool false),
                    ("message", .str "Failed to set permission")]),
         r1.2, ss)
    | _, _, _, _ => (.error (.valueErrorMsg "invalid enum value"), ps, ss)
  else (.error .forbidden, ps, ss)

/-- `PluginAutoUpgradeExcludePluginApi.post`: exclude one plugin from
auto-upgrade.  The endpoint takes the caller's role but performs no
admin/owner check on it — only the boundary decorators (setup, login,
account initialization) guard it. -/
def PluginAutoUpgradeExcludePluginApi.post (_is_admin_or_owner : Bool)
    (plugin_id : String)
    (exclude_plugin : String → Option TenantPluginAutoUpgradeStrategy →
      Bool × Option TenantPluginAutoUpgradeStrategy)
    (ss : Option TenantPluginAutoUpgradeStrategy) :
    Except ApiError JVal × Option TenantPluginAutoUpgradeStrategy :=
  let r := exclude_plugin plugin_id ss
  (.ok (.obj [("success", .bool r.1)]), r.2)

/-- Modelled from the spec: `PluginPermissionService.change_permission`
(`services/plugin/plugin_permission_service.py`, outside the given
sources) stores the given install/debug permissions for the tenant and
reports success (spec §4.6 `set_permission`). -/
def PluginPermissionService.change_permission (ip : InstallPermission)
    (dp : DebugPermission) (_ : Option TenantPluginPermission) :
    Bool × Option TenantPluginPermission :=
  (true, some ⟨ip, dp⟩)

/-- Modelled from the spec: `PluginAutoUpgradeService.change_strategy`
(`services/plugin/plugin_auto_upgrade_service.py`, outside the given
sources) stores the given strategy for the tenant and reports success
(spec §4.6 `set_strategy`). -/
def PluginAutoUpgradeService.change_strategy (sset : StrategySetting)
    (upgrade_time_of_day : Int) (umode : UpgradeMode)
    (exclude_plugins include_plugins : List String)
    (_ : Option TenantPluginAutoUpgradeStrategy) :
    Bool × Option TenantPluginAutoUpgradeStrategy :=
  (true, some ⟨sset, upgrade_time_of_day, umode, exclude_plugins, include_plugins⟩)

/-- If some element of the identifier list is not a string, the validation
loop raises the `ValueError`. -/
theorem checkIdentifiers_error_of_mem :
    ∀ ids : List PyVal, (∃ x ∈ ids, x.isStr = false) →
      checkIdentifiers ids = .error (.valueErrorMsg "Invalid plugin unique identifier")
  | [], h => by simp at h
  | a :: as, h => by
    by_cases ha : a.isStr = true
    · have hrest : ∃ x ∈ as, x.isStr = false := by
        obtain ⟨x, hx, hxs⟩ := h
        rcases List.mem_cons.mp hx with rfl | hmem
        · rw [ha] at hxs; cases hxs
        · exact ⟨x, hmem, hxs⟩
      simpa [checkIdentifiers, ha] using checkIdentifiers_error_of_mem as hrest
    · simp [checkIdentifiers, ha]

/-- C1 (counterexample): for the concrete request page = 1, page_size = 10
against a service returning an empty task page, the install-task-list
response is the object with a single "tasks" field and carries no "total"
field, contradicting the claim that the install-task-list operation
returns a total count alongside the returned page of tasks. -/
theorem C1_tasks_no_total_counterexample :
    (PluginFetchInstallTasksApi.get 1 10 (fun _ _ => .ok [])).result =
      .ok (.obj [("tasks", .list [])]) ∧
    (JVal.obj [("tasks", .list [])]).hasField "total" = false :=
  ⟨rfl, rfl⟩

/-- C1 (amended): for every page/page_size request, the plugin-list
operation returns an object containing both the plugin page and a total
field, whereas the install-task-list operation returns only the page of
tasks under a "tasks" field, with no total count. -/
theorem C1_list_endpoints_totals
    (page page_size : Int)
    (list_with_total : Int → Int → Except PluginDaemonClientSideError PluginListWithTotal)
    (fetch_install_tasks : Int → Int → Except PluginDaemonClientSideError (List JVal))
    (jl jt : JVal)
    (hL : (PluginListApi.get page page_size list_with_total).result = .ok jl)
    (hT : (PluginFetchInstallTasksApi.get page page_size fetch_install_tasks).result = .ok jt) :
    jl.hasField "plugins" = true ∧ jl.hasField "total" = true ∧
    jt.hasField "tasks" = true ∧ jt.hasField "total" = false := by
  cases hs : list_with_total page page_size with
  | error e => simp [PluginListApi.get, hs] at hL
  | ok r =>
    cases ht : fetch_install_tasks page page_size with
    | error e => simp [PluginFetchInstallTasksApi.get, ht] at hT
    | ok tasks =>
      simp [PluginListApi.get, hs] at hL
      simp [PluginFetchInstallTasksApi.get, ht] at hT
      rw [← hL, ← hT]
      refine ⟨rfl, rfl, rfl, rfl⟩

/-- C1 witness: the amended theorem applied at page = 1, page_size = 10
with concrete services returning an empty plugin page with total 0 and an
empty task page. -/
theorem C1_list_endpoints_totals_witness :
    (JVal.obj [("plugins", .list []), ("total", .num 0)]).hasField "plugins" = true ∧
    (JVal.obj [("plugins", .list []), ("total", .num 0)]).hasField "total" = true ∧
    (JVal.obj [("tasks", .list [])]).hasField "tasks" = true ∧
    (JVal.obj [("tasks", .list [])]).hasField "total" = false :=
  C1_list_endpoints_totals 1 10 (fun _ _ => .ok ⟨[], 0⟩) (fun _ _ => .ok [])
    (.obj [("plugins", .list []), ("total", .num 0)]) (.obj [("tasks", .list [])]) rfl rfl

/-- C2: an upload whose content length exceeds the configured maximum
(package or bundle limit respectively) is rejected with the size error
before the file is read and before any daemon call; an upload at or
below the limit reads the file and reaches the daemon. -/
theorem C2_upload_size_limit
    (content_length PLUGIN_MAX_PACKAGE_SIZE PLUGIN_MAX_BUNDLE_SIZE : Nat)
    (file_content : List Nat)
    (upload_pkg upload_bundle : List Nat → Except PluginDaemonClientSideError JVal) :
    ((PLUGIN_MAX_PACKAGE_SIZE < content_length →
        PluginUploadFromPkgApi.post content_length PLUGIN_MAX_PACKAGE_SIZE
            file_content upload_pkg =
          ⟨.error (.valueErrorMsg "File size exceeds the maximum allowed size"), false, 0⟩) ∧
     (content_length ≤ PLUGIN_MAX_PACKAGE_SIZE →
        (PluginUploadFromPkgApi.post content_length PLUGIN_MAX_PACKAGE_SIZE
            file_content upload_pkg).file_read = true ∧
        (PluginUploadFromPkgApi.post content_length PLUGIN_MAX_PACKAGE_SIZE
            file_content upload_pkg).daemonCalls = 1)) ∧
    ((PLUGIN_MAX_BUNDLE_SIZE < content_length →
        PluginUploadFromBundleApi.post content_length PLUGIN_MAX_BUNDLE_SIZE
            file_content upload_bundle =
          ⟨.error (.valueErrorMsg "File size exceeds the maximum allowed size"), false, 0⟩) ∧
     (content_length ≤ PLUGIN_MAX_BUNDLE_SIZE →
        (PluginUploadFromBundleApi.post content_length PLUGIN_MAX_BUNDLE_SIZE
            file_content upload_bundle).file_read = true ∧
        (PluginUploadFromBundleApi.post content_length PLUGIN_MAX_BUNDLE_SIZE
            file_content upload_bundle).daemonCalls = 1)) := by
  refine ⟨⟨fun h => ?_, fun h => ?_⟩, fun h => ?_, fun h => ?_⟩
  · simp [PluginUploadFromPkgApi.post, h]
  · simp only [PluginUploadFromPkgApi.post, if_neg (Nat.not_lt.mpr h)]
    cases upload_pkg file_content <;> exact ⟨rfl, rfl⟩
  · simp [PluginUploadFromBundleApi.post, h]
  · simp only [PluginUploadFromBundleApi.post, if_neg (Nat.not_lt.mpr h)]
    cases upload_bundle file_content <;> exact ⟨rfl, rfl⟩

/-- C2 witness: the theorem applied at content length 5 over a package
limit of 4, and at content length 3 under limits of 4. -/
theorem C2_upload_size_limit_witness :
    PluginUploadFromPkgApi.post 5 4 [7] (fun _ => .ok (.obj [])) =
      ⟨.error (.valueErrorMsg "File size exceeds the maximum allowed size"), false, 0⟩ ∧
    (PluginUploadFromPkgApi.post 3 4 [7] (fun _ => .ok (.obj []))).daemonCalls = 1 ∧
    PluginUploadFromBundleApi.post 5 4 [7] (fun _ => .ok (.obj [])) =
      ⟨.error (.valueErrorMsg "File size exceeds the maximum allowed size"), false, 0⟩ := by
  refine ⟨?_, ?_, ?_⟩
  · exact (C2_upload_size_limit 5 4 4 [7] (fun _ => .ok (.obj []))
      (fun _ => .ok (.obj []))).1.1 (by decide)
  · exact ((C2_upload_size_limit 3 4 4 [7] (fun _ => .ok (.obj []))
      (fun _ => .ok (.obj []))).1.2 (by decide)).2
  · exact (C2_upload_size_limit 5 4 4 [7] (fun _ => .ok (.obj []))
      (fun _ => .ok (.obj []))).2.1 (by decide)

/-- C3: a batch install request (local package or marketplace) containing
any element that is not a string fails whole with the identifier
`ValueError` and issues zero daemon calls. -/
theorem C3_install_rejects_nonstring_ids
    (plugin_unique_identifiers : List PyVal)
    (install_from_local_pkg install_from_marketplace_pkg :
      List PyVal → Except PluginDaemonClientSideError JVal)
    (h : ∃ x ∈ plugin_unique_identifiers, x.isStr = false) :
    PluginInstallFromPkgApi.post plugin_unique_identifiers install_from_local_pkg =
      ⟨.error (.valueErrorMsg "Invalid plugin unique identifier"), 0⟩ ∧
    PluginInstallFromMarketplaceApi.post plugin_unique_identifiers
        install_from_marketplace_pkg =
      ⟨.error (.valueErrorMsg "Invalid plugin unique identifier"), 0⟩ := by
  have hc := checkIdentifiers_error_of_mem plugin_unique_identifiers h
  exact ⟨by simp [PluginInstallFromPkgApi.post, hc],
         by simp [PluginInstallFromMarketplaceApi.post, hc]⟩

/-- C3 witness: the theorem applied to the singleton batch holding the
non-string identifier 3. -/
theorem C3_install_rejects_nonstring_ids_witness :
    PluginInstallFromPkgApi.post [.int 3] (fun _ => .ok (.obj [])) =
      ⟨.error (.valueErrorMsg "Invalid plugin unique identifier"), 0⟩ ∧
    PluginInstallFromMarketplaceApi.post [.int 3] (fun _ => .ok (.obj [])) =
      ⟨.error (.valueErrorMsg "Invalid plugin unique identifier"), 0⟩ :=
  C3_install_rejects_nonstring_ids [.int 3] (fun _ => .ok (.obj []))
    (fun _ => .ok (.obj [])) ⟨.int 3, List.mem_singleton_self _, rfl⟩

/-- C4: the permission-fetch and preferences-fetch operations return, for
a tenant with no stored permission record, exactly the result they return
for a tenant with an explicitly stored everyone/everyone record. -/
theorem C4_absent_permission_equals_everyone
    (auto_upgrade : Option TenantPluginAutoUpgradeStrategy) :
    PluginFetchPermissionApi.get none =
      PluginFetchPermissionApi.get (some ⟨.everyone, .everyone⟩) ∧
    PluginFetchPreferencesApi.get none auto_upgrade =
      PluginFetchPreferencesApi.get (some ⟨.everyone, .everyone⟩) auto_upgrade :=
  ⟨rfl, rfl⟩

/-- C5: for a tenant with no stored auto-upgrade strategy record, the
preferences-fetch operation returns the defaults disabled / time 0 /
exclude mode / empty exclude and include lists. -/
theorem C5_absent_strategy_defaults
    (permission : Option TenantPluginPermission) :
    (PluginFetchPreferencesApi.get permission none).getField "auto_upgrade" =
      some (.obj [("strategy_setting", .str "disabled"),
                  ("upgrade_time_of_day", .num 0),
                  ("upgrade_mode", .str "exclude"),
                  ("exclude_plugins", .list []),
                  ("include_plugins", .list [])]) := by
  cases permission <;> rfl

/-- C6: when the daemon service reports a client-side error, each
embedded endpoint surfaces it as `ValueError(e)` wrapping the daemon
error whole — original code and message intact, not reinterpreted — and
issues exactly one daemon call (no internal retry). -/
theorem C6_daemon_errors_passed_through
    (e : PluginDaemonClientSideError) (page page_size : Int)
    (content_length limit : Nat) (file_content : List Nat)
    (h : content_length ≤ limit)
    (tenant_id filename : String) (TOOL_ICON_CACHE_MAX_AGE : Nat) :
    (PluginListApi.get page page_size (fun _ _ => .error e)).result =
      .error (.valueError e) ∧
    (PluginListApi.get page page_size (fun _ _ => .error e)).daemonCalls = 1 ∧
    (PluginUploadFromPkgApi.post content_length limit file_content
        (fun _ => .error e)).result = .error (.valueError e) ∧
    (PluginUploadFromPkgApi.post content_length limit file_content
        (fun _ => .error e)).daemonCalls = 1 ∧
    (PluginFetchInstallTasksApi.get page page_size (fun _ _ => .error e)).result =
      .error (.valueError e) ∧
    PluginIconApi.get tenant_id filename (fun _ _ => .error e)
        TOOL_ICON_CACHE_MAX_AGE = .error (.valueError e) := by
  refine ⟨rfl, rfl, ?_, ?_, rfl, rfl⟩ <;>
    simp [PluginUploadFromPkgApi.post, if_neg (Nat.not_lt.mpr h)]

/-- C6 witness: the theorem applied to the daemon error with code 1 and
message "boom" at concrete requests. -/
theorem C6_daemon_errors_passed_through_witness :
    (PluginListApi.get 1 10 (fun _ _ => .error ⟨1, "boom"⟩)).result =
      .error (.valueError ⟨1, "boom"⟩) ∧
    (PluginUploadFromPkgApi.post 3 4 [7] (fun _ => .error ⟨1, "boom"⟩)).daemonCalls = 1 := by
  have h := C6_daemon_errors_passed_through ⟨1, "boom"⟩ 1 10 3 4 [7] (by decide) "t" "f" 60
  exact ⟨h.1, h.2.2.2.1⟩

/-- C7: a successful asset-retrieval request returns exactly the bytes and
mimetype reported by the service, served with the configured icon cache
max-age. -/
theorem C7_icon_served_with_configured_max_age
    (tenant_id filename : String) (icon_bytes : List Nat) (mimetype : String)
    (TOOL_ICON_CACHE_MAX_AGE : Nat)
    (get_asset : String → String → Except PluginDaemonClientSideError (List Nat × String))
    (h : get_asset tenant_id filename = .ok (icon_bytes, mimetype)) :
    PluginIconApi.get tenant_id filename get_asset TOOL_ICON_CACHE_MAX_AGE =
      .ok ⟨icon_bytes, mimetype, TOOL_ICON_CACHE_MAX_AGE⟩ := by
  simp [PluginIconApi.get, h]

/-- C7 witness: the theorem applied to a service returning one byte with
mimetype "image/svg+xml" under a configured max-age of 3600. -/
theorem C7_icon_served_with_configured_max_age_witness :
    PluginIconApi.get "tenant" "icon.svg" (fun _ _ => .ok ([42], "image/svg+xml")) 3600 =
      .ok ⟨[42], "image/svg+xml", 3600⟩ :=
  C7_icon_served_with_configured_max_age "tenant" "icon.svg" [42] "image/svg+xml" 3600
    (fun _ _ => .ok ([42], "image/svg+xml")) rfl

/-- C8: in the preferences-change operation, when the permission change
fails, the response is success=false with the permission failure message
and the stored auto-upgrade strategy is left exactly as it was — the
strategy change is never attempted. -/
theorem C8_permission_failure_blocks_strategy
    (permission : PermissionDictArg) (auto_upgrade : AutoUpgradeDictArg)
    (change_permission : InstallPermission → DebugPermission →
      Option TenantPluginPermission → Bool × Option TenantPluginPermission)
    (change_strategy : StrategySetting → Int → UpgradeMode → List String → List String →
      Option TenantPluginAutoUpgradeStrategy → Bool × Option TenantPluginAutoUpgradeStrategy)
    (ps : Option TenantPluginPermission) (ss : Option TenantPluginAutoUpgradeStrategy)
    (ip : InstallPermission) (dp : DebugPermission)
    (sset : StrategySetting) (umode : UpgradeMode)
    (h1 : InstallPermission.ofString (permission.install_permission.getD "everyone") = some ip)
    (h2 : DebugPermission.ofString (permission.debug_permission.getD "everyone") = some dp)
    (h3 : StrategySetting.ofString (auto_upgrade.strategy_setting.getD "fix_only") = some sset)
    (h4 : UpgradeMode.ofString (auto_upgrade.upgrade_mode.getD "exclude") = some umode)
    (h5 : (change_permission ip dp ps).1 = false) :
    PluginChangePreferencesApi.post true permission auto_upgrade
        change_permission change_strategy ps ss =
      (.ok (.obj [("success", .bool false), ("message", .str "Failed to set permission")]),
       (change_permission ip dp ps).2, ss) := by
  simp [PluginChangePreferencesApi.post, h1, h2, h3, h4, h5]

/-- C8 witness: the theorem applied to empty request dicts and a
permission service that always fails, with a strategy store that would
change if the strategy service were reached. -/
theorem C8_permission_failure_blocks_strategy_witness :
    PluginChangePreferencesApi.post true ⟨none, none⟩ ⟨none, none, none, none, none⟩
        (fun _ _ s => (false, s))
        (fun sset tod umode ex inc _ => (true, some ⟨sset, tod, umode, ex, inc⟩))
        none none =
      (.ok (.obj [("success", .bool false), ("message", .str "Failed to set permission")]),
       none, none) :=
  C8_permission_failure_blocks_strategy ⟨none, none⟩ ⟨none, none, none, none, none⟩
    (fun _ _ s => (false, s))
    (fun sset tod umode ex inc _ => (true, some ⟨sset, tod, umode, ex, inc⟩))
    none none .everyone .everyone .fix_only .exclude rfl rfl rfl rfl rfl

/-- C9: with both nested request dicts empty, the preferences-change
operation fills the request-level defaults — everyone/everyone for the
permission and fix_only / time 0 / exclude mode / empty lists for the
strategy — and those defaults are what the stores end up holding. -/
theorem C9_request_defaults_stored
    (ps : Option TenantPluginPermission) (ss : Option TenantPluginAutoUpgradeStrategy) :
    PluginChangePreferencesApi.post true ⟨none, none⟩ ⟨none, none, none, none, none⟩
        PluginPermissionService.change_permission
        PluginAutoUpgradeService.change_strategy ps ss =
      (.ok (.obj [("success", .bool true)]),
       some ⟨.everyone, .everyone⟩,
       some ⟨.fix_only, 0, .exclude, [], []⟩) :=
  rfl

/-- C10: a caller who is not admin or owner is rejected with Forbidden by
the permission-change and preferences-change operations, while the
exclude-plugin operation accepts every authenticated, initialized member
regardless of role and always runs the exclude service. -/
theorem C10_role_checks
    (is_admin_or_owner : Bool) (hrole : is_admin_or_owner = false)
    (install_permission debug_permission : String)
    (change_permission : InstallPermission → DebugPermission → Bool)
    (permission : PermissionDictArg) (auto_upgrade : AutoUpgradeDictArg)
    (change_permission2 : InstallPermission → DebugPermission →
      Option TenantPluginPermission → Bool × Option TenantPluginPermission)
    (change_strategy : StrategySetting → Int → UpgradeMode → List String → List String →
      Option TenantPluginAutoUpgradeStrategy → Bool × Option TenantPluginAutoUpgradeStrategy)
    (ps : Option TenantPluginPermission) (ss ss2 : Option TenantPluginAutoUpgradeStrategy)
    (plugin_id : String)
    (exclude_plugin : String → Option TenantPluginAutoUpgradeStrategy →
      Bool × Option TenantPluginAutoUpgradeStrategy) :
    PluginChangePermissionApi.post is_admin_or_owner install_permission
        debug_permission change_permission = .error .forbidden ∧
    (PluginChangePreferencesApi.post is_admin_or_owner permission auto_upgrade
        change_permission2 change_strategy ps ss).1 = .error .forbidden ∧
    (∀ role : Bool,
      PluginAutoUpgradeExcludePluginApi.post role plugin_id exclude_plugin ss2 =
        (.ok (.obj [("success", .bool (exclude_plugin plugin_id ss2).1)]),
         (exclude_plugin plugin_id ss2).2)) := by
  subst hrole
  exact ⟨rfl, rfl, fun _ => rfl⟩

/-- C10 witness: the theorem applied to a non-admin caller and concrete
services. -/
theorem C10_role_checks_witness :
    PluginChangePermissionApi.post false "everyone" "everyone" (fun _ _ => true) =
      .error .forbidden ∧
    PluginAutoUpgradeExcludePluginApi.post false "acme/foo" (fun _ s => (true, s)) none =
      (.ok (.obj [("success", .bool true)]), none) := by
  have h := C10_role_checks false rfl "everyone" "everyone" (fun _ _ => true)
    ⟨none, none⟩ ⟨none, none, none, none, none⟩
    (fun _ _ s => (true, s)) (fun _ _ _ _ _ s => (true, s)) none none none
    "acme/foo" (fun _ s => (true, s))
  exact ⟨h.1, h.2.2 false⟩

end DifyPlugin
